import Mathlib

/-!
Shallow embedding of the I²C / MPU-6050 hardware simulator
(`src/tests/e2e/simulator/`: `simulator.h`, `mpu6050_virtual.c`,
`i2c_simulator.c`) and proofs about its specification.

Modelling conventions:
* machine integers are `Nat` (register bytes, indices, counts) or `Int`
  (signed 16-bit sensor values, POSIX-style return codes), with wrap-around
  written explicitly via `% 2^w` where the C code relies on it;
* the C functions that consult `rand()` / `should_inject_error` take the
  random draws as explicit oracle parameters (`inject : Bool` for the
  primary `should_inject_error(probability)` draw, `roll : Nat` for the
  `rand()` value used by the INTERMITTENT secondary roll, `corrupt : Nat`
  for the CORRUPT_DATA byte);
* the sensor sample regenerated by `update_sensor_data` is produced in C by
  floating-point generator functions (`generate_accel_data` etc., which also
  call `rand()`); the regenerated sample is therefore likewise passed as an
  oracle parameter `gen : SensorData` — no claim below depends on the
  numeric values of generated samples, only on the 14-byte frame layout;
* `pthread` locking, `usleep` delays and timestamps are concurrency/timing
  artefacts with no effect on the sequential state transition and are
  dropped; the `struct timespec start_time` field is likewise dropped.
-/

/-! ### Constants (simulator.h) -/

def MAX_I2C_DEVICES : Nat := 128
def FIFO_BUFFER_SIZE : Nat := 1024

def MPU6050_WHO_AM_I : Nat := 0x75
def MPU6050_PWR_MGMT_1 : Nat := 0x6B
def MPU6050_PWR_MGMT_2 : Nat := 0x6C
def MPU6050_ACCEL_CONFIG : Nat := 0x1C
def MPU6050_GYRO_CONFIG : Nat := 0x1B
def MPU6050_ACCEL_XOUT_H : Nat := 0x3B
def MPU6050_ACCEL_XOUT_L : Nat := 0x3C
def MPU6050_ACCEL_YOUT_H : Nat := 0x3D
def MPU6050_ACCEL_YOUT_L : Nat := 0x3E
def MPU6050_ACCEL_ZOUT_H : Nat := 0x3F
def MPU6050_ACCEL_ZOUT_L : Nat := 0x40
def MPU6050_TEMP_OUT_H : Nat := 0x41
def MPU6050_TEMP_OUT_L : Nat := 0x42
def MPU6050_GYRO_XOUT_H : Nat := 0x43
def MPU6050_GYRO_XOUT_L : Nat := 0x44
def MPU6050_GYRO_YOUT_H : Nat := 0x45
def MPU6050_GYRO_YOUT_L : Nat := 0x46
def MPU6050_GYRO_ZOUT_H : Nat := 0x47
def MPU6050_GYRO_ZOUT_L : Nat := 0x48
def MPU6050_FIFO_COUNTH : Nat := 0x72
def MPU6050_FIFO_COUNTL : Nat := 0x73
def MPU6050_FIFO_R_W : Nat := 0x74
def MPU6050_USER_CTRL : Nat := 0x6A
def MPU6050_FIFO_EN : Nat := 0x23
def MPU6050_WHO_AM_I_VALUE : Nat := 0x68

/-! ### POSIX error codes (returned negated, as in the C sources) -/

def EINVAL : Int := 22
def ENODEV : Int := 19
def EIO_c : Int := 5
def EACCES : Int := 13
def ETIMEDOUT : Int := 110
def EEXIST : Int := 17
def ENOMEM : Int := 12
def ENOTSUP : Int := 95

/-! ### Enumerations (simulator.h) -/

/-- Error injection types (`error_type_t`). -/
inductive ErrorType where
  | NONE
  | DEVICE_NOT_FOUND
  | TIMEOUT
  | BUS_ERROR
  | CORRUPT_DATA
  | INTERMITTENT
deriving DecidableEq

/-- Sensor data patterns (`data_pattern_t`). -/
inductive Pattern where
  | STATIC
  | SINE_WAVE
  | NOISE
  | GRAVITY_ONLY
  | ROTATION
  | VIBRATION
deriving DecidableEq

/-- Power management states (`power_state_t`). -/
inductive PowerState where
  | OFF
  | SLEEP
  | CYCLE
  | ON
deriving DecidableEq

/-! ### Data model (simulator.h structs) -/

/-- Virtual sensor data (`sensor_data_t`): six signed 16-bit motion channels,
a signed 16-bit temperature and a 32-bit timestamp. -/
structure SensorData where
  accel_x : Int
  accel_y : Int
  accel_z : Int
  gyro_x : Int
  gyro_y : Int
  gyro_z : Int
  temperature : Int
  timestamp : Nat

/-- FIFO buffer (`fifo_buffer_t`): 1024-byte ring with head/tail/count,
an enabled flag and a latched overflow flag.  The byte array is modelled
as a total function from index to byte value. -/
structure FifoBuffer where
  buffer : Nat → Nat
  head : Nat
  tail : Nat
  count : Nat
  enabled : Bool
  overflow : Bool

/-- MPU-6050 device state (`mpu6050_state_t`); the `start_time` timestamp
field is dropped (timing only).  `error_probability` is a rational stand-in
for the C `double` in [0,1]; all probabilistic decisions are taken through
the `inject` oracle parameter, never through this field. -/
structure Mpu6050State where
  registers : Nat → Nat
  current_data : SensorData
  fifo : FifoBuffer
  power_state : PowerState
  pattern : Pattern
  error_mode : ErrorType
  error_probability : Rat
  initialized : Bool
  self_test_mode : Bool
  sample_count : Nat

/-- Global simulator device slab (`i2c_simulator_t.mpu6050_devices`): the
array of `MAX_I2C_DEVICES` per-device states, modelled as a total function
from slot index to state.  The bus directory is modelled separately (see
`Bus` below); the two interact only through device creation/destruction,
which no claim needs jointly. -/
structure Simulator where
  devices : Nat → Mpu6050State

/-- Pointwise register-map update (`state->registers[r] = v`). -/
def updReg (m : Nat → Nat) (r v : Nat) : Nat → Nat :=
  fun x => if x = r then v else m x

/-- Update the device at slot `idx` of the simulator slab. -/
def setDevice (sim : Simulator) (idx : Nat) (s : Mpu6050State) : Simulator :=
  { devices := fun i => if i = idx then s else sim.devices i }

/-! ### FIFO ring-buffer primitives (mpu6050_virtual.c) -/

/-- Push of one byte into the FIFO, as performed by the
`MPU6050_FIFO_R_W` case of `mpu6050_write_register` (lines 614-625) and by
each iteration of the loop in `update_fifo_buffer` (lines 690-699): if
there is room the byte is stored at `head` and `head`/`count` advance,
otherwise the byte is dropped and the overflow flag is latched. -/
def fifoWriteByte (b : Nat) (f : FifoBuffer) : FifoBuffer :=
  if f.count < FIFO_BUFFER_SIZE then
    { f with buffer := fun i => if i = f.head then b else f.buffer i,
             head := (f.head + 1) % FIFO_BUFFER_SIZE,
             count := f.count + 1 }
  else
    { f with overflow := true }

/-- Pop of one byte, as performed by the `MPU6050_FIFO_R_W` case of
`mpu6050_read_register` (lines 560-571): when nonempty, the byte at `tail`
is returned and `tail`/`count` advance; when empty, 0 is returned and the
FIFO is unchanged. -/
def fifoPop (f : FifoBuffer) : Nat × FifoBuffer :=
  if 0 < f.count then
    (f.buffer f.tail,
      { f with tail := (f.tail + 1) % FIFO_BUFFER_SIZE, count := f.count - 1 })
  else
    (0, f)

/-- Drain loop of `mpu6050_fifo_read` (lines 275-281): reads up to `len`
bytes while the FIFO is nonempty, returning the bytes read (in order) and
the resulting FIFO. -/
def fifoReadLoop : Nat → FifoBuffer → List Nat × FifoBuffer
  | 0, f => ([], f)
  | len + 1, f =>
    if 0 < f.count then
      let b := f.buffer f.tail
      let f' : FifoBuffer :=
        { f with tail := (f.tail + 1) % FIFO_BUFFER_SIZE, count := f.count - 1 }
      let r := fifoReadLoop len f'
      (b :: r.1, r.2)
    else
      ([], f)

/-- Field resets performed by `mpu6050_fifo_reset` (lines 232-235) and by the
FIFO_RESET branch of `handle_fifo_configuration` (lines 772-777):
head/tail/count/overflow cleared, enabled flag and contents untouched. -/
def fifoClear (f : FifoBuffer) : FifoBuffer :=
  { f with head := 0, tail := 0, count := 0, overflow := false }

/-- High byte of a signed 16-bit value as computed by `(x >> 8) & 0xFF` in C
(arithmetic shift on the sign-extended value, then mask). -/
def hiByte (x : Int) : Nat := ((x.emod 65536) / 256).toNat

/-- Low byte of a signed 16-bit value as computed by `x & 0xFF` in C. -/
def loByte (x : Int) : Nat := (x.emod 256).toNat

/-- The 14-byte FIFO frame assembled by `update_fifo_buffer`
(lines 674-688): accel X/Y/Z, temperature, gyro X/Y/Z, high byte first. -/
def frameBytes (d : SensorData) : List Nat :=
  [hiByte d.accel_x, loByte d.accel_x,
   hiByte d.accel_y, loByte d.accel_y,
   hiByte d.accel_z, loByte d.accel_z,
   hiByte d.temperature, loByte d.temperature,
   hiByte d.gyro_x, loByte d.gyro_x,
   hiByte d.gyro_y, loByte d.gyro_y,
   hiByte d.gyro_z, loByte d.gyro_z]

/-- Frame-append loop of `update_fifo_buffer` (lines 690-699): pushes the
bytes in order; once the FIFO is full it latches overflow and stops
(the C loop `break`s). -/
def pushFrame : List Nat → FifoBuffer → FifoBuffer
  | [], f => f
  | b :: rest, f =>
    if f.count < FIFO_BUFFER_SIZE then
      pushFrame rest (fifoWriteByte b f)
    else
      { f with overflow := true }

/-- `update_fifo_buffer` (mpu6050_virtual.c lines 670-702): appends the
current sample's 14-byte frame to the FIFO. -/
def update_fifo_buffer (s : Mpu6050State) : Mpu6050State :=
  { s with fifo := pushFrame (frameBytes s.current_data) s.fifo }

/-- `update_sensor_data` (mpu6050_virtual.c lines 645-668): no-op when the
device is OFF or asleep; otherwise advances the sample counter, installs the
freshly generated sample (passed here as the oracle `gen`, see the header
comment) and, if the FIFO is enabled, appends the 14-byte frame. -/
def update_sensor_data (gen : SensorData) (s : Mpu6050State) : Mpu6050State :=
  if s.power_state = PowerState.OFF ∨ s.power_state = PowerState.SLEEP then
    s
  else
    let s1 := { s with sample_count := s.sample_count + 1, current_data := gen }
    if s1.fifo.enabled then update_fifo_buffer s1 else s1

/-! ### Register access control (mpu6050_virtual.c) -/

/-- `is_register_readable` (lines 704-708): always true. -/
def is_register_readable (_reg : Nat) : Bool := true

/-- `is_register_writable` (lines 710-734): the switch lists WHO_AM_I, the
fourteen sensor-output registers and the two FIFO-count registers as
read-only; everything else is writable. -/
def is_register_writable (reg : Nat) : Bool :=
  if reg = MPU6050_WHO_AM_I ∨
     reg = MPU6050_ACCEL_XOUT_H ∨ reg = MPU6050_ACCEL_XOUT_L ∨
     reg = MPU6050_ACCEL_YOUT_H ∨ reg = MPU6050_ACCEL_YOUT_L ∨
     reg = MPU6050_ACCEL_ZOUT_H ∨ reg = MPU6050_ACCEL_ZOUT_L ∨
     reg = MPU6050_TEMP_OUT_H ∨ reg = MPU6050_TEMP_OUT_L ∨
     reg = MPU6050_GYRO_XOUT_H ∨ reg = MPU6050_GYRO_XOUT_L ∨
     reg = MPU6050_GYRO_YOUT_H ∨ reg = MPU6050_GYRO_YOUT_L ∨
     reg = MPU6050_GYRO_ZOUT_H ∨ reg = MPU6050_GYRO_ZOUT_L ∨
     reg = MPU6050_FIFO_COUNTH ∨ reg = MPU6050_FIFO_COUNTL then
    false
  else
    true

/-! ### Register read (mpu6050_virtual.c lines 476-578) -/

/-- Result of a single register read: return code, the byte delivered
through the `data` out-pointer (`none` on the failure paths, which leave the
caller's buffer untouched), and the post-state of the device. -/
abbrev ReadResult := Int × Option Nat × Mpu6050State

/-- Register dispatch switch of `mpu6050_read_register` (lines 510-575),
reached after the initialization, error-injection and readability checks.
Reading `ACCEL_XOUT_H` first runs `update_sensor_data`; the other sensor
bytes read the already-computed sample; the FIFO-count registers expose the
big-endian split of `count`; `FIFO_R_W` pops one byte (0 if empty); all
other registers read the byte map. -/
def readSwitch (gen : SensorData) (reg : Nat) (s : Mpu6050State) : ReadResult :=
  if reg = MPU6050_ACCEL_XOUT_H then
    let s' := update_sensor_data gen s
    (0, some (hiByte s'.current_data.accel_x), s')
  else if reg = MPU6050_ACCEL_XOUT_L then (0, some (loByte s.current_data.accel_x), s)
  else if reg = MPU6050_ACCEL_YOUT_H then (0, some (hiByte s.current_data.accel_y), s)
  else if reg = MPU6050_ACCEL_YOUT_L then (0, some (loByte s.current_data.accel_y), s)
  else if reg = MPU6050_ACCEL_ZOUT_H then (0, some (hiByte s.current_data.accel_z), s)
  else if reg = MPU6050_ACCEL_ZOUT_L then (0, some (loByte s.current_data.accel_z), s)
  else if reg = MPU6050_GYRO_XOUT_H then (0, some (hiByte s.current_data.gyro_x), s)
  else if reg = MPU6050_GYRO_XOUT_L then (0, some (loByte s.current_data.gyro_x), s)
  else if reg = MPU6050_GYRO_YOUT_H then (0, some (hiByte s.current_data.gyro_y), s)
  else if reg = MPU6050_GYRO_YOUT_L then (0, some (loByte s.current_data.gyro_y), s)
  else if reg = MPU6050_GYRO_ZOUT_H then (0, some (hiByte s.current_data.gyro_z), s)
  else if reg = MPU6050_GYRO_ZOUT_L then (0, some (loByte s.current_data.gyro_z), s)
  else if reg = MPU6050_TEMP_OUT_H then (0, some (hiByte s.current_data.temperature), s)
  else if reg = MPU6050_TEMP_OUT_L then (0, some (loByte s.current_data.temperature), s)
  else if reg = MPU6050_FIFO_COUNTH then (0, some ((s.fifo.count / 256) % 256), s)
  else if reg = MPU6050_FIFO_COUNTL then (0, some (s.fifo.count % 256), s)
  else if reg = MPU6050_FIFO_R_W then
    if 0 < s.fifo.count then
      let p := fifoPop s.fifo
      (0, some p.1, { s with fifo := p.2 })
    else
      (0, some 0, s)
  else
    (0, some (s.registers reg), s)

/-- `mpu6050_read_register` (mpu6050_virtual.c lines 476-578).  `inject` is
the `should_inject_error(error_probability)` draw, `corrupt` the random byte
substituted by CORRUPT_DATA, `roll` the `rand()` value of the INTERMITTENT
secondary roll (the C code tests `rand() % 10 < 3`), `gen` the sample the
generators would produce if the read triggers regeneration. -/
def mpu6050_read_register (inject : Bool) (corrupt roll : Nat)
    (gen : SensorData) (reg : Nat) (s : Mpu6050State) : ReadResult :=
  if s.initialized = false then (-ENODEV, none, s)
  else
    let core : ReadResult :=
      if is_register_readable reg = false then (-EACCES, none, s)
      else readSwitch gen reg s
    if inject then
      match s.error_mode with
      | ErrorType.DEVICE_NOT_FOUND => (-ENODEV, none, s)
      | ErrorType.TIMEOUT => (-ETIMEDOUT, none, s)
      | ErrorType.BUS_ERROR => (-EIO_c, none, s)
      | ErrorType.CORRUPT_DATA => (0, some (corrupt % 256), s)
      | ErrorType.INTERMITTENT =>
        if roll % 10 < 3 then (-EIO_c, none, s) else core
      | ErrorType.NONE => core
    else core

/-! ### Register write (mpu6050_virtual.c lines 580-632, 736-780) -/

/-- `handle_fifo_configuration` (lines 761-780): stores the byte; for
`USER_CTRL` only, bit 6 drives the FIFO enabled flag and bit 2 clears
head/tail/count/overflow. -/
def handle_fifo_configuration (reg value : Nat) (s : Mpu6050State) : Mpu6050State :=
  let s1 := { s with registers := updReg s.registers reg value }
  if reg = MPU6050_USER_CTRL then
    let s2 :=
      if value &&& 0x40 ≠ 0 then
        { s1 with fifo := { s1.fifo with enabled := true } }
      else
        { s1 with fifo := { s1.fifo with enabled := false } }
    if value &&& 0x04 ≠ 0 then
      { s2 with fifo := fifoClear s2.fifo }
    else
      s2
  else
    s1

/-- `mpu6050_fifo_reset` (mpu6050_virtual.c lines 221-241): resolves the
device by `address % MAX_I2C_DEVICES`, fails not-found when that slot is
uninitialized, otherwise clears head/tail/count/overflow of that slot's
FIFO. -/
def mpu6050_fifo_reset (address : Nat) (sim : Simulator) : Int × Simulator :=
  let idx := address % MAX_I2C_DEVICES
  let s := sim.devices idx
  if s.initialized = false then (-ENODEV, sim)
  else (0, setDevice sim idx { s with fifo := fifoClear s.fifo })

/-- `handle_power_management` (mpu6050_virtual.c lines 736-759): stores the
byte, derives the power state from the SLEEP/CYCLE bits, and on the
DEVICE_RESET bit zeroes the whole register map, restores WHO_AM_I and the
sleep default of PWR_MGMT_1, forces SLEEP, and then calls
`mpu6050_fifo_reset(0)` — note the literal address 0, which targets the
device in slot 0 of the global slab, not necessarily the device being
written.  Because the reset path touches another slot, this transition is a
function of the whole simulator slab plus the index of the written
device. -/
def handle_power_management (sim : Simulator) (idx : Nat) (value : Nat) : Simulator :=
  let s := sim.devices idx
  let s1 : Mpu6050State :=
    { s with registers := updReg s.registers MPU6050_PWR_MGMT_1 value,
             power_state :=
               if value &&& 0x40 ≠ 0 then PowerState.SLEEP
               else if value &&& 0x20 ≠ 0 then PowerState.CYCLE
               else PowerState.ON }
  if value &&& 0x80 ≠ 0 then
    let s2 : Mpu6050State :=
      { s1 with registers := fun r =>
                  if r = MPU6050_WHO_AM_I then MPU6050_WHO_AM_I_VALUE
                  else if r = MPU6050_PWR_MGMT_1 then 0x40
                  else 0,
                power_state := PowerState.SLEEP }
    (mpu6050_fifo_reset 0 (setDevice sim idx s2)).2
  else
    setDevice sim idx s1

/-- Register dispatch switch of `mpu6050_write_register` (lines 606-629),
reached after the initialization, error-injection and writability checks. -/
def writeSwitch (idx reg data : Nat) (sim : Simulator) : Simulator :=
  if reg = MPU6050_PWR_MGMT_1 then
    handle_power_management sim idx data
  else if reg = MPU6050_USER_CTRL ∨ reg = MPU6050_FIFO_EN then
    setDevice sim idx (handle_fifo_configuration reg data (sim.devices idx))
  else if reg = MPU6050_FIFO_R_W then
    let s := sim.devices idx
    setDevice sim idx { s with fifo := fifoWriteByte data s.fifo }
  else
    let s := sim.devices idx
    setDevice sim idx { s with registers := updReg s.registers reg data }

/-- `mpu6050_write_register` (mpu6050_virtual.c lines 580-632), lifted to
the simulator slab because the DEVICE_RESET path reaches slot 0 (see
`handle_power_management`).  `idx` is the slot of the device the `void*`
argument points at; `inject` is the `should_inject_error` draw.  The
injection switch in the write path covers only DEVICE_NOT_FOUND, TIMEOUT
and BUS_ERROR; all other modes (including INTERMITTENT and CORRUPT_DATA)
fall through to the normal write. -/
def mpu6050_write_register (inject : Bool) (idx reg data : Nat)
    (sim : Simulator) : Int × Simulator :=
  let s := sim.devices idx
  if s.initialized = false then (-ENODEV, sim)
  else
    let core : Int × Simulator :=
      if is_register_writable reg = false then (-EACCES, sim)
      else (0, writeSwitch idx reg data sim)
    if inject then
      match s.error_mode with
      | ErrorType.DEVICE_NOT_FOUND => (-ENODEV, sim)
      | ErrorType.TIMEOUT => (-ETIMEDOUT, sim)
      | ErrorType.BUS_ERROR => (-EIO_c, sim)
      | _ => core
    else core

/-! ### Burst operations -/

/-- Per-iteration oracle for burst loops: the `should_inject_error` draw,
the CORRUPT_DATA byte, the INTERMITTENT roll, and the sample a triggered
regeneration would produce. -/
structure Oracle where
  inject : Bool
  corrupt : Nat
  roll : Nat
  gen : SensorData

/-- `mpu6050_read_burst` (mpu6050_virtual.c lines 634-643): sequential
single-register reads of `reg`, `reg+1`, …; stops and returns the first
negative result.  `os i` is the oracle of iteration `i`. -/
def mpu6050_read_burst (os : Nat → Oracle) (reg : Nat) :
    Nat → Nat → Mpu6050State → Int × List Nat × Mpu6050State
  | _, 0, s => (0, [], s)
  | i, len + 1, s =>
    let r := mpu6050_read_register (os i).inject (os i).corrupt (os i).roll
               (os i).gen (reg + i) s
    if r.1 < 0 then (r.1, [], r.2.2)
    else
      let rest := mpu6050_read_burst os reg (i + 1) len r.2.2
      (rest.1, r.2.1.getD 0 :: rest.2.1, rest.2.2)

/-- Write loop of `i2c_simulator_write_burst` (i2c_simulator.c lines
340-347): sequential single-register writes; stops at the first negative
result.  `inj i` is the injection draw of iteration `i`. -/
def write_burst_loop (inj : Nat → Bool) (idx reg : Nat) :
    List Nat → Nat → Simulator → Int × Simulator
  | [], _, sim => (0, sim)
  | b :: rest, i, sim =>
    let r := mpu6050_write_register (inj i) idx (reg + i) b sim
    if r.1 < 0 then (r.1, r.2)
    else write_burst_loop inj idx reg rest (i + 1) r.2

/-! ### Address-based API functions (mpu6050_virtual.c) -/

/-- Device-state defaults installed by `mpu6050_simulator_create`
(mpu6050_virtual.c lines 33-76): register map zeroed except WHO_AM_I and
the sleep default of PWR_MGMT_1 (PWR_MGMT_2 / ACCEL_CONFIG / GYRO_CONFIG
are set to their default 0, indistinguishable from the memset); sensor data
zero except 1g on Z and the default temperature ((21.0+36.53)*340 truncated
to 19560 by the C cast); FIFO zeroed and disabled; SLEEP power state,
GRAVITY_ONLY pattern, no error injection; initialized. -/
def createdDevice : Mpu6050State :=
  { registers := fun r =>
      if r = MPU6050_WHO_AM_I then MPU6050_WHO_AM_I_VALUE
      else if r = MPU6050_PWR_MGMT_1 then 0x40
      else 0,
    current_data :=
      { accel_x := 0, accel_y := 0, accel_z := 16384,
        gyro_x := 0, gyro_y := 0, gyro_z := 0,
        temperature := 19560, timestamp := 0 },
    fifo := { buffer := fun _ => 0, head := 0, tail := 0, count := 0,
              enabled := false, overflow := false },
    power_state := PowerState.SLEEP,
    pattern := Pattern.GRAVITY_ONLY,
    error_mode := ErrorType.NONE,
    error_probability := 0,
    initialized := true,
    self_test_mode := false,
    sample_count := 0 }

/-- `mpu6050_simulator_create` (lines 33-76): installs the defaults in slot
`address % MAX_I2C_DEVICES`; always returns 0. -/
def mpu6050_simulator_create (address : Nat) (sim : Simulator) : Int × Simulator :=
  (0, setDevice sim (address % MAX_I2C_DEVICES) createdDevice)

/-- `mpu6050_simulator_destroy` (lines 78-91): clears only the initialized
flag; always returns 0. -/
def mpu6050_simulator_destroy (address : Nat) (sim : Simulator) : Int × Simulator :=
  let idx := address % MAX_I2C_DEVICES
  (0, setDevice sim idx { sim.devices idx with initialized := false })

/-- `mpu6050_simulator_set_pattern` (lines 99-117): fails `-EINVAL` when the
device is uninitialized (the C range check `pattern >= PATTERN_COUNT` cannot
fire for a well-typed `Pattern`). -/
def mpu6050_simulator_set_pattern (address : Nat) (p : Pattern)
    (sim : Simulator) : Int × Simulator :=
  let idx := address % MAX_I2C_DEVICES
  let s := sim.devices idx
  if s.initialized = false then (-EINVAL, sim)
  else (0, setDevice sim idx { s with pattern := p })

/-- `mpu6050_simulator_set_error_mode` (lines 119-138): fails `-EINVAL` when
the device is uninitialized or the probability is out of [0,1] (the enum
range check cannot fire for a well-typed `ErrorType`). -/
def mpu6050_simulator_set_error_mode (address : Nat) (e : ErrorType)
    (p : Rat) (sim : Simulator) : Int × Simulator :=
  let idx := address % MAX_I2C_DEVICES
  let s := sim.devices idx
  if s.initialized = false ∨ p < 0 ∨ 1 < p then (-EINVAL, sim)
  else (0, setDevice sim idx { s with error_mode := e, error_probability := p })

/-- `mpu6050_simulator_get_data` (lines 140-155): fails `-ENODEV` when the
device is uninitialized, otherwise returns the current sample. -/
def mpu6050_simulator_get_data (address : Nat) (sim : Simulator) :
    Int × Option SensorData :=
  let s := sim.devices (address % MAX_I2C_DEVICES)
  if s.initialized = false then (-ENODEV, none)
  else (0, some s.current_data)

/-- `mpu6050_simulator_inject_error` (lines 157-181): fails `-ENODEV` when
uninitialized; otherwise forces probability 1 and BUS_ERROR mode. -/
def mpu6050_simulator_inject_error (address : Nat) (sim : Simulator) :
    Int × Simulator :=
  let idx := address % MAX_I2C_DEVICES
  let s := sim.devices idx
  if s.initialized = false then (-ENODEV, sim)
  else (0, setDevice sim idx
         { s with error_probability := 1, error_mode := ErrorType.BUS_ERROR })

/-- `mpu6050_fifo_enable` (mpu6050_virtual.c lines 183-219): fails `-ENODEV`
when uninitialized; sets the enabled flag, on enabling also clears
head/tail/count/overflow, and mirrors the flag into bit 6 of USER_CTRL. -/
def mpu6050_fifo_enable (address : Nat) (enable : Bool) (sim : Simulator) :
    Int × Simulator :=
  let idx := address % MAX_I2C_DEVICES
  let s := sim.devices idx
  if s.initialized = false then (-ENODEV, sim)
  else
    let f1 := { s.fifo with enabled := enable }
    let f2 := if enable then
                { f1 with head := 0, tail := 0, count := 0, overflow := false }
              else f1
    let regs := if enable then
                  updReg s.registers MPU6050_USER_CTRL
                    (s.registers MPU6050_USER_CTRL ||| 0x40)
                else
                  updReg s.registers MPU6050_USER_CTRL
                    (s.registers MPU6050_USER_CTRL &&& 0xBF)
    (0, setDevice sim idx { s with fifo := f2, registers := regs })

/-- `mpu6050_fifo_get_count` (lines 243-260): fails `-ENODEV` when
uninitialized, otherwise returns the FIFO count. -/
def mpu6050_fifo_get_count (address : Nat) (sim : Simulator) :
    Int × Option Nat :=
  let s := sim.devices (address % MAX_I2C_DEVICES)
  if s.initialized = false then (-ENODEV, none)
  else (0, some s.fifo.count)

/-- `mpu6050_fifo_read` (lines 262-287): `-EINVAL` on a zero-length request
(null buffer is unrepresentable here), `-ENODEV` when uninitialized;
otherwise drains up to `len` bytes and returns how many were read. -/
def mpu6050_fifo_read (address : Nat) (len : Nat) (sim : Simulator) :
    Int × List Nat × Simulator :=
  if len = 0 then (-EINVAL, [], sim)
  else
    let idx := address % MAX_I2C_DEVICES
    let s := sim.devices idx
    if s.initialized = false then (-ENODEV, [], sim)
    else
      let r := fifoReadLoop len s.fifo
      (Int.ofNat r.1.length, r.1, setDevice sim idx { s with fifo := r.2 })

/-- `mpu6050_set_power_state` (lines 289-327): fails `-EINVAL` when
uninitialized (the `power_state >= POWER_COUNT` range check cannot fire for
a well-typed `PowerState`); otherwise stores the state and updates the
SLEEP/CYCLE bits of PWR_MGMT_1. -/
def mpu6050_set_power_state (address : Nat) (ps : PowerState)
    (sim : Simulator) : Int × Simulator :=
  let idx := address % MAX_I2C_DEVICES
  let s := sim.devices idx
  if s.initialized = false then (-EINVAL, sim)
  else
    let regs :=
      match ps with
      | PowerState.OFF =>
        updReg s.registers MPU6050_PWR_MGMT_1 (s.registers MPU6050_PWR_MGMT_1 ||| 0x40)
      | PowerState.SLEEP =>
        updReg s.registers MPU6050_PWR_MGMT_1 (s.registers MPU6050_PWR_MGMT_1 ||| 0x40)
      | PowerState.ON =>
        updReg s.registers MPU6050_PWR_MGMT_1 (s.registers MPU6050_PWR_MGMT_1 &&& 0xBF)
      | PowerState.CYCLE =>
        updReg s.registers MPU6050_PWR_MGMT_1 (s.registers MPU6050_PWR_MGMT_1 ||| 0x20)
    (0, setDevice sim idx { s with power_state := ps, registers := regs })

/-! ### Background sampler (i2c_simulator.c lines 498-515) -/

/-- One tick of the loop body of `background_simulation_thread`
(i2c_simulator.c lines 501-512).  The loop iterates over all device slots
and tests each `initialized` flag, but the per-device update call is
commented out in the source (`// mpu6050_update_background(...)`, line 506),
so a tick performs no state change whatsoever: the tick is the identity on
the simulator state. -/
def background_tick (sim : Simulator) : Simulator := sim

/-! ### Bus registry (i2c_simulator.c lines 99-180, 543-553) -/

/-- Bus device slot (`i2c_device_t`), reduced to the fields the registry
logic reads: address and presence.  The capability function pointers are
the same for every "mpu6050" slot and carry no state. -/
structure Slot where
  address : Nat
  present : Bool
deriving DecidableEq

/-- One I²C bus (`i2c_bus_t`), reduced to the slot table: `devices[0 ..
device_count)` is modelled as a list whose length is `device_count`
(slots past `device_count` are never read by `find_device`). -/
structure Bus where
  slots : List Slot
deriving DecidableEq

/-- `find_device` (i2c_simulator.c lines 543-553): first slot below
`device_count` whose address matches and which is present. -/
def find_device (bus : Bus) (address : Nat) : Option Slot :=
  bus.slots.find? (fun d => d.address = address ∧ d.present = true)

/-- `i2c_simulator_add_device` (i2c_simulator.c lines 99-151), specialised
to a valid bus id on an initialized simulator; `supported` is whether
`device_type` is "mpu6050" (for which `mpu6050_simulator_create` always
succeeds).  Duplicate present address: `-EEXIST`; table full: `-ENOMEM`;
unsupported type: `-ENOMEM` is not returned — the slot counter is
incremented then decremented back, leaving the table unchanged, and
`-ENOTSUP` is returned.  A successful add appends a fresh present slot at
index `device_count` and increments the counter. -/
def i2c_simulator_add_device (bus : Bus) (address : Nat) (supported : Bool) :
    Int × Bus :=
  if (find_device bus address).isSome then (-EEXIST, bus)
  else if MAX_I2C_DEVICES ≤ bus.slots.length then (-ENOMEM, bus)
  else if supported then
    (0, { slots := bus.slots ++ [{ address := address, present := true }] })
  else (-ENOTSUP, bus)

/-- Mark the first present slot with the given address as not-present
(the slot itself stays in the table). -/
def markAbsent : List Slot → Nat → List Slot
  | [], _ => []
  | d :: rest, address =>
    if d.address = address ∧ d.present = true then
      { d with present := false } :: rest
    else
      d :: markAbsent rest address

/-- `i2c_simulator_remove_device` (i2c_simulator.c lines 153-180): fails
`-ENODEV` when no present slot matches; otherwise marks the slot
not-present.  `device_count` is never decremented, so the table length is
unchanged. -/
def i2c_simulator_remove_device (bus : Bus) (address : Nat) : Int × Bus :=
  if (find_device bus address).isSome then
    (0, { slots := markAbsent bus.slots address })
  else (-ENODEV, bus)

/-- Bus registry operations, for sequencing claims. -/
inductive BusOp where
  | add (address : Nat) (supported : Bool)
  | remove (address : Nat)

/-- Apply one bus registry operation. -/
def applyBusOp (op : BusOp) (bus : Bus) : Bus :=
  match op with
  | BusOp.add address supported => (i2c_simulator_add_device bus address supported).2
  | BusOp.remove address => (i2c_simulator_remove_device bus address).2

/-- Run a list of bus registry operations, returning the final bus and the
number of `add_device` calls that returned success (0). -/
def runBusOps : List BusOp → Bus → Bus × Nat
  | [], bus => (bus, 0)
  | op :: rest, bus =>
    let n := match op with
      | BusOp.add address supported =>
        if (i2c_simulator_add_device bus address supported).1 = 0 then 1 else 0
      | BusOp.remove _ => 0
    let r := runBusOps rest (applyBusOp op bus)
    (r.1, n + r.2)

/-! ### Helper lemmas -/

lemma setDevice_devices_self (sim : Simulator) (idx : Nat) (s : Mpu6050State) :
    (setDevice sim idx s).devices idx = s := by
  simp [setDevice]

lemma updReg_self (m : Nat → Nat) (r v : Nat) : updReg m r v r = v := by
  simp [updReg]

lemma writable_eq_false_iff (reg : Nat) :
    is_register_writable reg = false ↔
      (reg = 0x75 ∨ (0x3B ≤ reg ∧ reg ≤ 0x48) ∨ reg = 0x72 ∨ reg = 0x73) := by
  simp only [is_register_writable, MPU6050_WHO_AM_I, MPU6050_ACCEL_XOUT_H,
    MPU6050_ACCEL_XOUT_L, MPU6050_ACCEL_YOUT_H, MPU6050_ACCEL_YOUT_L,
    MPU6050_ACCEL_ZOUT_H, MPU6050_ACCEL_ZOUT_L, MPU6050_TEMP_OUT_H,
    MPU6050_TEMP_OUT_L, MPU6050_GYRO_XOUT_H, MPU6050_GYRO_XOUT_L,
    MPU6050_GYRO_YOUT_H, MPU6050_GYRO_YOUT_L, MPU6050_GYRO_ZOUT_H,
    MPU6050_GYRO_ZOUT_L, MPU6050_FIFO_COUNTH, MPU6050_FIFO_COUNTL]
  by_cases h : reg = 117 ∨ (59 ≤ reg ∧ reg ≤ 72) ∨ reg = 114 ∨ reg = 115
  · constructor
    · intro _; exact h
    · intro _
      rw [if_pos]
      omega
  · constructor
    · intro hfalse
      by_contra
      rw [if_neg] at hfalse
      · exact Bool.true_eq_false ▸ hfalse ▸ rfl
      · omega
    · intro h2; exact absurd h2 h

/-- Simulator slab in which every slot holds a freshly created device. -/
def simAllCreated : Simulator := { devices := fun _ => createdDevice }

/-! ### Claim theorems -/

/-- C7: for every initialized device with no fault injected, a register
write to any sensor-output register (0x3B-0x48) or FIFO-count register
(0x72, 0x73) returns the ACCESS error and leaves the register map and the
entire FIFO state (indeed, the whole simulator state) unchanged. -/
theorem C7_readonly_write_rejected_and_frame (idx reg data : Nat)
    (sim : Simulator)
    (hinit : (sim.devices idx).initialized = true)
    (hreg : (0x3B ≤ reg ∧ reg ≤ 0x48) ∨ reg = 0x72 ∨ reg = 0x73) :
    mpu6050_write_register false idx reg data sim = (-EACCES, sim) := by
  have hw : is_register_writable reg = false :=
    (writable_eq_false_iff reg).2 (by omega)
  simp [mpu6050_write_register, hinit, hw]

/-- Witness for C7 at a concrete input. -/
theorem C7_readonly_write_rejected_and_frame_witness :
    mpu6050_write_register false 0 0x3B 0x55 simAllCreated
      = (-EACCES, simAllCreated) :=
  C7_readonly_write_rejected_and_frame 0 0x3B 0x55 simAllCreated rfl
    (Or.inl (by omega))

lemma writable_true_ne (reg : Nat) (hw : is_register_writable reg = true) :
    reg ≠ 0x75 ∧ ¬(0x3B ≤ reg ∧ reg ≤ 0x48) ∧ reg ≠ 0x72 ∧ reg ≠ 0x73 := by
  have h : ¬(reg = 0x75 ∨ (0x3B ≤ reg ∧ reg ≤ 0x48) ∨ reg = 0x72 ∨ reg = 0x73) := by
    intro hc
    have hf := (writable_eq_false_iff reg).2 hc
    rw [hw] at hf
    exact Bool.noConfusion hf
  omega

lemma readSwitch_default (gen : SensorData) (reg : Nat) (s : Mpu6050State)
    (hs : ¬(0x3B ≤ reg ∧ reg ≤ 0x48)) (h72 : reg ≠ 0x72) (h73 : reg ≠ 0x73)
    (h74 : reg ≠ 0x74) :
    readSwitch gen reg s = (0, some (s.registers reg), s) := by
  obtain ⟨e1, e2, e3, e4, e5, e6, e7, e8, e9, e10, e11, e12, e13, e14, e15,
      e16, e17⟩ :
      reg ≠ MPU6050_ACCEL_XOUT_H ∧ reg ≠ MPU6050_ACCEL_XOUT_L ∧
      reg ≠ MPU6050_ACCEL_YOUT_H ∧ reg ≠ MPU6050_ACCEL_YOUT_L ∧
      reg ≠ MPU6050_ACCEL_ZOUT_H ∧ reg ≠ MPU6050_ACCEL_ZOUT_L ∧
      reg ≠ MPU6050_GYRO_XOUT_H ∧ reg ≠ MPU6050_GYRO_XOUT_L ∧
      reg ≠ MPU6050_GYRO_YOUT_H ∧ reg ≠ MPU6050_GYRO_YOUT_L ∧
      reg ≠ MPU6050_GYRO_ZOUT_H ∧ reg ≠ MPU6050_GYRO_ZOUT_L ∧
      reg ≠ MPU6050_TEMP_OUT_H ∧ reg ≠ MPU6050_TEMP_OUT_L ∧
      reg ≠ MPU6050_FIFO_COUNTH ∧ reg ≠ MPU6050_FIFO_COUNTL ∧
      reg ≠ MPU6050_FIFO_R_W := by
    simp only [MPU6050_ACCEL_XOUT_H, MPU6050_ACCEL_XOUT_L,
      MPU6050_ACCEL_YOUT_H, MPU6050_ACCEL_YOUT_L, MPU6050_ACCEL_ZOUT_H,
      MPU6050_ACCEL_ZOUT_L, MPU6050_GYRO_XOUT_H, MPU6050_GYRO_XOUT_L,
      MPU6050_GYRO_YOUT_H, MPU6050_GYRO_YOUT_L, MPU6050_GYRO_ZOUT_H,
      MPU6050_GYRO_ZOUT_L, MPU6050_TEMP_OUT_H, MPU6050_TEMP_OUT_L,
      MPU6050_FIFO_COUNTH, MPU6050_FIFO_COUNTL, MPU6050_FIFO_R_W]
    omega
  unfold readSwitch
  rw [if_neg e1, if_neg e2, if_neg e3, if_neg e4, if_neg e5, if_neg e6,
    if_neg e7, if_neg e8, if_neg e9, if_neg e10, if_neg e11, if_neg e12,
    if_neg e13, if_neg e14, if_neg e15, if_neg e16, if_neg e17]

/-- C9: for every initialized device, every writable register that is not
one of the special-cased registers PWR_MGMT_1, USER_CTRL, FIFO_EN or
FIFO_R_W (i.e. every register handled by the default read and write
passthrough), and every byte, a write followed immediately by a read of the
same register succeeds and returns the written byte, when no fault is
injected on either access. -/
theorem C9_write_read_roundtrip (idx reg v corrupt roll : Nat)
    (gen : SensorData) (sim : Simulator)
    (hinit : (sim.devices idx).initialized = true)
    (hw : is_register_writable reg = true)
    (h1 : reg ≠ MPU6050_PWR_MGMT_1) (h2 : reg ≠ MPU6050_USER_CTRL)
    (h3 : reg ≠ MPU6050_FIFO_EN) (h4 : reg ≠ MPU6050_FIFO_R_W) :
    (mpu6050_write_register false idx reg v sim).1 = 0 ∧
    mpu6050_read_register false corrupt roll gen reg
        ((mpu6050_write_register false idx reg v sim).2.devices idx)
      = (0, some v, (mpu6050_write_register false idx reg v sim).2.devices idx) := by
  obtain ⟨n75, nsens, n72, n73⟩ := writable_true_ne reg hw
  have h74 : reg ≠ 0x74 := by simpa [MPU6050_FIFO_R_W] using h4
  constructor
  · simp [mpu6050_write_register, hinit, hw]
  · have hdev : (mpu6050_write_register false idx reg v sim).2.devices idx
        = { sim.devices idx with
              registers := updReg (sim.devices idx).registers reg v } := by
      simp [mpu6050_write_register, writeSwitch, hinit, hw, h1, h2, h3, h4,
        setDevice_devices_self]
    rw [hdev]
    simp [mpu6050_read_register, hinit, is_register_readable,
      readSwitch_default gen reg _ nsens n72 n73 h74, updReg_self]

/-- Witness for C9 at a concrete input (ACCEL_CONFIG, value 0x18). -/
theorem C9_write_read_roundtrip_witness :
    (mpu6050_write_register false 3 0x1C 0x18 simAllCreated).1 = 0 ∧
    mpu6050_read_register false 0 0 createdDevice.current_data 0x1C
        ((mpu6050_write_register false 3 0x1C 0x18 simAllCreated).2.devices 3)
      = (0, some 0x18,
         (mpu6050_write_register false 3 0x1C 0x18 simAllCreated).2.devices 3) :=
  C9_write_read_roundtrip 3 0x1C 0x18 0 0 createdDevice.current_data
    simAllCreated rfl (by decide)
    (by simp [MPU6050_PWR_MGMT_1]) (by simp [MPU6050_USER_CTRL])
    (by simp [MPU6050_FIFO_EN]) (by simp [MPU6050_FIFO_R_W])

/-- Simulator slab in which every slot holds a destroyed (uninitialized)
device. -/
def simUninit : Simulator :=
  { devices := fun _ => { createdDevice with initialized := false } }

/-- C4 counterexample: on an uninitialized device, `set_pattern` fails with
`-EINVAL` (invalid argument), which is not the not-found error `-ENODEV`
the claim requires for every operation. -/
theorem C4_counterexample_set_pattern_einval :
    (mpu6050_simulator_set_pattern 0x68 Pattern.STATIC simUninit).1 = -EINVAL ∧
    -EINVAL ≠ -ENODEV := by
  constructor
  · rfl
  · decide

/-- C4 (amended): for every device whose initialized flag is false, every
operation fails; register reads, register writes, burst reads, burst
writes and all four FIFO operations fail with the not-found error
`-ENODEV`, while `set_pattern`, `set_error_mode` and `set_power_state`
fail with the invalid-argument error `-EINVAL` instead. -/
theorem C4_uninitialized_all_ops_fail (sim : Simulator) (addr : Nat)
    (hinit : (sim.devices (addr % MAX_I2C_DEVICES)).initialized = false) :
    (∀ inject corrupt roll gen reg,
      mpu6050_read_register inject corrupt roll gen reg
          (sim.devices (addr % MAX_I2C_DEVICES))
        = (-ENODEV, none, sim.devices (addr % MAX_I2C_DEVICES))) ∧
    (∀ inject reg data,
      mpu6050_write_register inject (addr % MAX_I2C_DEVICES) reg data sim
        = (-ENODEV, sim)) ∧
    (∀ os reg i len,
      (mpu6050_read_burst os reg i (len + 1)
          (sim.devices (addr % MAX_I2C_DEVICES))).1 = -ENODEV) ∧
    (∀ inj reg b bs i,
      (write_burst_loop inj (addr % MAX_I2C_DEVICES) reg (b :: bs) i sim).1
        = -ENODEV) ∧
    (∀ p, mpu6050_simulator_set_pattern addr p sim = (-EINVAL, sim)) ∧
    (∀ e prob, mpu6050_simulator_set_error_mode addr e prob sim = (-EINVAL, sim)) ∧
    (∀ ps, mpu6050_set_power_state addr ps sim = (-EINVAL, sim)) ∧
    (∀ en, mpu6050_fifo_enable addr en sim = (-ENODEV, sim)) ∧
    (mpu6050_fifo_reset addr sim = (-ENODEV, sim)) ∧
    (mpu6050_fifo_get_count addr sim = (-ENODEV, none)) ∧
    (∀ len, mpu6050_fifo_read addr (len + 1) sim = (-ENODEV, [], sim)) := by
  refine ⟨?_, ?_, ?_, ?_, ?_, ?_, ?_, ?_, ?_, ?_, ?_⟩
  · intro inject corrupt roll gen reg
    simp [mpu6050_read_register, hinit]
  · intro inject reg data
    simp [mpu6050_write_register, hinit]
  · intro os reg i len
    simp [mpu6050_read_burst, mpu6050_read_register, hinit, ENODEV]
  · intro inj reg b bs i
    simp [write_burst_loop, mpu6050_write_register, hinit, ENODEV]
  · intro p
    simp [mpu6050_simulator_set_pattern, hinit]
  · intro e prob
    simp [mpu6050_simulator_set_error_mode, hinit]
  · intro ps
    simp [mpu6050_set_power_state, hinit]
  · intro en
    simp [mpu6050_fifo_enable, hinit]
  · simp [mpu6050_fifo_reset, hinit]
  · simp [mpu6050_fifo_get_count, hinit]
  · intro len
    simp [mpu6050_fifo_read, hinit]

/-- Witness for C4 (amended) at a concrete input. -/
theorem C4_uninitialized_all_ops_fail_witness :
    mpu6050_write_register false (0x68 % MAX_I2C_DEVICES) 0x1C 5 simUninit
      = (-ENODEV, simUninit) ∧
    mpu6050_simulator_set_pattern 0x68 Pattern.STATIC simUninit
      = (-EINVAL, simUninit) :=
  ⟨(C4_uninitialized_all_ops_fail simUninit 0x68 rfl).2.1 false 0x1C 5,
   (C4_uninitialized_all_ops_fail simUninit 0x68 rfl).2.2.2.2.1 Pattern.STATIC⟩

/-- C5 counterexample: on a freshly created device (FIFO disabled), a write
of 0x40 — the FIFO-enable bit pattern — to register FIFO_EN (0x23) succeeds
but does not set the FIFO enabled flag, because
`handle_fifo_configuration` only stores the byte for FIFO_EN and changes
FIFO state for USER_CTRL writes alone. -/
theorem C5_counterexample_fifo_en_write_ignored :
    (mpu6050_write_register false 104 0x23 0x40 simAllCreated).1 = 0 ∧
    ((mpu6050_write_register false 104 0x23 0x40 simAllCreated).2.devices
        104).fifo.enabled = false := by
  constructor
  · rfl
  · rfl

/-- C5 (amended): for every initialized device, only USER_CTRL (0x6A)
register writes affect the FIFO: the enabled flag is set to bit 6 of the
written value in every USER_CTRL write (without resetting head, tail,
count or overflow when only bit 6 is involved), and when bit 2
(FIFO_RESET) is also set the same write clears head, tail, count and
overflow — while the enabled flag still follows bit 6 of that very write
rather than staying unchanged.  A register write to FIFO_EN (0x23) only
stores the byte in the register map and leaves the FIFO state untouched.
The `fifo_enable` API call, by contrast, does reset head, tail, count and
overflow when enabling. -/
theorem C5_fifo_configuration_amended (sim : Simulator) (idx value : Nat)
    (hinit : (sim.devices idx).initialized = true)
    (hidx : idx < MAX_I2C_DEVICES) :
    (value &&& 0x40 ≠ 0 →
      ((mpu6050_write_register false idx MPU6050_USER_CTRL value
          sim).2.devices idx).fifo.enabled = true) ∧
    (value &&& 0x40 = 0 →
      ((mpu6050_write_register false idx MPU6050_USER_CTRL value
          sim).2.devices idx).fifo.enabled = false) ∧
    (value &&& 0x04 ≠ 0 →
      (((mpu6050_write_register false idx MPU6050_USER_CTRL value
          sim).2.devices idx).fifo.head = 0 ∧
       ((mpu6050_write_register false idx MPU6050_USER_CTRL value
          sim).2.devices idx).fifo.tail = 0 ∧
       ((mpu6050_write_register false idx MPU6050_USER_CTRL value
          sim).2.devices idx).fifo.count = 0 ∧
       ((mpu6050_write_register false idx MPU6050_USER_CTRL value
          sim).2.devices idx).fifo.overflow = false)) ∧
    (value &&& 0x04 = 0 →
      (((mpu6050_write_register false idx MPU6050_USER_CTRL value
          sim).2.devices idx).fifo.head = (sim.devices idx).fifo.head ∧
       ((mpu6050_write_register false idx MPU6050_USER_CTRL value
          sim).2.devices idx).fifo.tail = (sim.devices idx).fifo.tail ∧
       ((mpu6050_write_register false idx MPU6050_USER_CTRL value
          sim).2.devices idx).fifo.count = (sim.devices idx).fifo.count ∧
       ((mpu6050_write_register false idx MPU6050_USER_CTRL value
          sim).2.devices idx).fifo.overflow = (sim.devices idx).fifo.overflow)) ∧
    ((mpu6050_write_register false idx MPU6050_FIFO_EN value sim).2.devices idx
      = { sim.devices idx with
            registers := updReg (sim.devices idx).registers MPU6050_FIFO_EN value }) ∧
    (((mpu6050_fifo_enable idx true sim).2.devices idx).fifo.enabled = true ∧
     ((mpu6050_fifo_enable idx true sim).2.devices idx).fifo.head = 0 ∧
     ((mpu6050_fifo_enable idx true sim).2.devices idx).fifo.tail = 0 ∧
     ((mpu6050_fifo_enable idx true sim).2.devices idx).fifo.count = 0 ∧
     ((mpu6050_fifo_enable idx true sim).2.devices idx).fifo.overflow = false) := by
  have hmod : idx % MAX_I2C_DEVICES = idx := Nat.mod_eq_of_lt hidx
  have hwu : is_register_writable MPU6050_USER_CTRL = true := by decide
  have hwf : is_register_writable MPU6050_FIFO_EN = true := by decide
  have hne1 : MPU6050_USER_CTRL ≠ MPU6050_PWR_MGMT_1 := by decide
  have hne2 : MPU6050_FIFO_EN ≠ MPU6050_PWR_MGMT_1 := by decide
  have hne3 : MPU6050_FIFO_EN ≠ MPU6050_USER_CTRL := by decide
  have hu : (mpu6050_write_register false idx MPU6050_USER_CTRL value
      sim).2.devices idx
      = handle_fifo_configuration MPU6050_USER_CTRL value (sim.devices idx) := by
    simp [mpu6050_write_register, writeSwitch, hinit, hwu, hne1,
      setDevice_devices_self]
  have hf : (mpu6050_write_register false idx MPU6050_FIFO_EN value
      sim).2.devices idx
      = handle_fifo_configuration MPU6050_FIFO_EN value (sim.devices idx) := by
    simp [mpu6050_write_register, writeSwitch, hinit, hwf, hne2,
      setDevice_devices_self]
  refine ⟨?_, ?_, ?_, ?_, ?_, ?_⟩
  · intro h40
    rw [hu]
    by_cases h04 : value &&& 0x04 ≠ 0 <;>
      simp [handle_fifo_configuration, fifoClear, h40, h04]
  · intro h40
    rw [hu]
    by_cases h04 : value &&& 0x04 ≠ 0 <;>
      simp [handle_fifo_configuration, fifoClear, h40, h04]
  · intro h04
    rw [hu]
    by_cases h40 : value &&& 0x40 ≠ 0 <;>
      simp [handle_fifo_configuration, fifoClear, h40, h04]
  · intro h04
    rw [hu]
    by_cases h40 : value &&& 0x40 ≠ 0 <;>
      simp [handle_fifo_configuration, fifoClear, h40, h04]
  · rw [hf]
    simp [handle_fifo_configuration, hne3]
  · have he : ((mpu6050_fifo_enable idx true sim).2.devices idx).fifo
        = { (sim.devices idx).fifo with enabled := true, head := 0,
                                        tail := 0, count := 0,
                                        overflow := false } := by
      simp [mpu6050_fifo_enable, hmod, hinit, setDevice_devices_self]
    rw [he]
    simp

/-- Witness for C5 (amended) at a concrete input. -/
theorem C5_fifo_configuration_amended_witness :
    ((mpu6050_write_register false 7 MPU6050_USER_CTRL 0x44
        simAllCreated).2.devices 7).fifo.enabled = true ∧
    ((mpu6050_write_register false 7 MPU6050_USER_CTRL 0x44
        simAllCreated).2.devices 7).fifo.count = 0 :=
  ⟨((C5_fifo_configuration_amended simAllCreated 7 0x44 rfl
      (by decide)).1 (by decide)),
   ((C5_fifo_configuration_amended simAllCreated 7 0x44 rfl
      (by decide)).2.2.1 (by decide)).2.2.1⟩

/-- Simulator slab of created devices with INTERMITTENT error mode at
probability 1 (so the primary `should_inject_error` draw always hits). -/
def simIntermittent : Simulator :=
  { devices := fun _ =>
      { createdDevice with error_mode := ErrorType.INTERMITTENT,
                           error_probability := 1 } }

/-- C6 counterexample: with error mode INTERMITTENT and probability 1 the
primary draw always hits (`inject = true`), yet a single-byte write to a
writable register succeeds — the injection switch of
`mpu6050_write_register` has no INTERMITTENT case — contradicting the
claimed `p × 0.3` failure rate for writes. -/
theorem C6_counterexample_write_never_fails :
    (mpu6050_write_register true 1 0x1C 5 simIntermittent).1 = 0 ∧
    (0 : Int) ≠ -EIO_c := by
  constructor
  · rfl
  · decide

/-- C6 (amended): under error mode INTERMITTENT, a single-byte read fails
with `-EIO` exactly when the primary draw hits and the secondary roll
(`rand() % 10 < 3`, roughly 30%) also hits, and otherwise behaves as if no
fault had been drawn, so the effective read failure rate is p × 0.3;
single-byte writes (and hence burst writes, which iterate them) are
entirely unaffected by INTERMITTENT injection, so the effective write
failure rate is 0, not p × 0.3. -/
theorem C6_intermittent_reads_only (sim : Simulator)
    (idx reg data corrupt roll : Nat) (gen : SensorData)
    (hinit : (sim.devices idx).initialized = true)
    (hmode : (sim.devices idx).error_mode = ErrorType.INTERMITTENT) :
    (roll % 10 < 3 →
      mpu6050_read_register true corrupt roll gen reg (sim.devices idx)
        = (-EIO_c, none, sim.devices idx)) ∧
    (¬(roll % 10 < 3) →
      mpu6050_read_register true corrupt roll gen reg (sim.devices idx)
        = mpu6050_read_register false corrupt roll gen reg (sim.devices idx)) ∧
    (mpu6050_write_register true idx reg data sim
      = mpu6050_write_register false idx reg data sim) := by
  refine ⟨?_, ?_, ?_⟩
  · intro h
    simp [mpu6050_read_register, hinit, hmode, h]
  · intro h
    simp [mpu6050_read_register, hinit, hmode, h]
  · simp [mpu6050_write_register, hinit, hmode]

/-- Witness for C6 (amended) at a concrete input. -/
theorem C6_intermittent_reads_only_witness :
    mpu6050_read_register true 0 2 createdDevice.current_data 0x75
        (simIntermittent.devices 0)
      = (-EIO_c, none, simIntermittent.devices 0) ∧
    mpu6050_write_register true 0 0x1C 7 simIntermittent
      = mpu6050_write_register false 0 0x1C 7 simIntermittent :=
  ⟨(C6_intermittent_reads_only simIntermittent 0 0x75 7 0 2
      createdDevice.current_data rfl rfl).1 (by decide),
   (C6_intermittent_reads_only simIntermittent 0 0x1C 7 0 2
      createdDevice.current_data rfl rfl).2.2⟩

/-! ### WHO_AM_I invariant machinery (C8) -/

/-- Operations of the claim: register writes (with their injection draw),
pattern changes and power-state changes. -/
inductive SimOp where
  | write (inject : Bool) (idx reg data : Nat)
  | setPattern (addr : Nat) (p : Pattern)
  | setPower (addr : Nat) (ps : PowerState)

/-- Apply one operation, discarding its status code. -/
def applySimOp : SimOp → Simulator → Simulator
  | SimOp.write inject idx reg data, sim =>
    (mpu6050_write_register inject idx reg data sim).2
  | SimOp.setPattern addr p, sim =>
    (mpu6050_simulator_set_pattern addr p sim).2
  | SimOp.setPower addr ps, sim =>
    (mpu6050_set_power_state addr ps sim).2

/-- Apply a sequence of operations in order. -/
def applySimOps : List SimOp → Simulator → Simulator
  | [], sim => sim
  | op :: rest, sim => applySimOps rest (applySimOp op sim)

/-- Every device slot's WHO_AM_I register holds the chip ID 0x68. -/
def WhoAmIInv (sim : Simulator) : Prop :=
  ∀ i, (sim.devices i).registers MPU6050_WHO_AM_I = MPU6050_WHO_AM_I_VALUE

lemma whoAmI_setDevice (sim : Simulator) (idx : Nat) (s : Mpu6050State)
    (h : WhoAmIInv sim)
    (hs : s.registers MPU6050_WHO_AM_I = MPU6050_WHO_AM_I_VALUE) :
    WhoAmIInv (setDevice sim idx s) := by
  intro i
  by_cases hi : i = idx
  · simp [setDevice, hi, hs]
  · simp [setDevice, hi, h i]

lemma whoAmI_fifo_reset (addr : Nat) (sim : Simulator) (h : WhoAmIInv sim) :
    WhoAmIInv (mpu6050_fifo_reset addr sim).2 := by
  unfold mpu6050_fifo_reset
  by_cases hin : (sim.devices (addr % MAX_I2C_DEVICES)).initialized = false
  · simpa [hin] using h
  · rw [if_neg hin]
    exact whoAmI_setDevice _ _ _ h (h _)

lemma whoAmI_hpm (sim : Simulator) (idx value : Nat) (h : WhoAmIInv sim) :
    WhoAmIInv (handle_power_management sim idx value) := by
  unfold handle_power_management
  by_cases h80 : value &&& 0x80 ≠ 0
  · rw [if_pos h80]
    apply whoAmI_fifo_reset
    apply whoAmI_setDevice _ _ _ h
    simp
  · rw [if_neg h80]
    apply whoAmI_setDevice _ _ _ h
    simp [updReg, MPU6050_PWR_MGMT_1, MPU6050_WHO_AM_I]
    simpa [MPU6050_WHO_AM_I] using h idx

lemma whoAmI_hfc (s : Mpu6050State) (reg value : Nat)
    (hne : MPU6050_WHO_AM_I ≠ reg) :
    (handle_fifo_configuration reg value s).registers MPU6050_WHO_AM_I
      = s.registers MPU6050_WHO_AM_I := by
  unfold handle_fifo_configuration
  split_ifs <;> simp [updReg, fifoClear, hne]

lemma whoAmI_writeSwitch (idx reg data : Nat) (sim : Simulator)
    (hw : is_register_writable reg = true) (h : WhoAmIInv sim) :
    WhoAmIInv (writeSwitch idx reg data sim) := by
  obtain ⟨n75, -, -, -⟩ := writable_true_ne reg hw
  have hne : MPU6050_WHO_AM_I ≠ reg := by
    simp only [MPU6050_WHO_AM_I]
    omega
  unfold writeSwitch
  by_cases h1 : reg = MPU6050_PWR_MGMT_1
  · rw [if_pos h1]
    exact whoAmI_hpm _ _ _ h
  · rw [if_neg h1]
    by_cases h2 : reg = MPU6050_USER_CTRL ∨ reg = MPU6050_FIFO_EN
    · rw [if_pos h2]
      apply whoAmI_setDevice _ _ _ h
      rw [whoAmI_hfc _ _ _ hne]
      exact h idx
    · rw [if_neg h2]
      by_cases h3 : reg = MPU6050_FIFO_R_W
      · rw [if_pos h3]
        apply whoAmI_setDevice _ _ _ h
        exact h idx
      · rw [if_neg h3]
        apply whoAmI_setDevice _ _ _ h
        simp [updReg, hne]
        exact h idx

/-- The post-state of `mpu6050_write_register` is either the unchanged
simulator (failure paths) or the dispatch result on a writable register. -/
lemma write_register_snd_cases (inject : Bool) (idx reg data : Nat)
    (sim : Simulator) :
    (mpu6050_write_register inject idx reg data sim).2 = sim ∨
    ((mpu6050_write_register inject idx reg data sim).2
        = writeSwitch idx reg data sim ∧ is_register_writable reg = true) := by
  unfold mpu6050_write_register
  by_cases hin : (sim.devices idx).initialized = false
  · left
    simp [hin]
  · rw [if_neg hin]
    by_cases hw : is_register_writable reg = true
    · cases hinj : inject
      · right
        refine ⟨?_, hw⟩
        simp [hw]
      · cases hmode : (sim.devices idx).error_mode <;> simp [hw]
    · have hw' : is_register_writable reg = false := by
        cases hq : is_register_writable reg
        · rfl
        · exact absurd hq hw
      cases hinj : inject
      · left
        simp [hw']
      · cases hmode : (sim.devices idx).error_mode <;> simp [hw']

lemma whoAmI_applySimOp (op : SimOp) (sim : Simulator) (h : WhoAmIInv sim) :
    WhoAmIInv (applySimOp op sim) := by
  cases op with
  | write inject idx reg data =>
    rcases write_register_snd_cases inject idx reg data sim with hc | ⟨hc, hw⟩
    · simpa [applySimOp, hc] using h
    · simp only [applySimOp, hc]
      exact whoAmI_writeSwitch idx reg data sim hw h
  | setPattern addr p =>
    simp only [applySimOp, mpu6050_simulator_set_pattern]
    by_cases hin :
        (sim.devices (addr % MAX_I2C_DEVICES)).initialized = false
    · simpa [hin] using h
    · rw [if_neg hin]
      exact whoAmI_setDevice _ _ _ h (h _)
  | setPower addr ps =>
    simp only [applySimOp, mpu6050_set_power_state]
    by_cases hin :
        (sim.devices (addr % MAX_I2C_DEVICES)).initialized = false
    · simpa [hin] using h
    · rw [if_neg hin]
      apply whoAmI_setDevice _ _ _ h
      cases ps <;>
        simp [updReg, MPU6050_PWR_MGMT_1, MPU6050_WHO_AM_I] <;>
        simpa [MPU6050_WHO_AM_I] using h (addr % MAX_I2C_DEVICES)

lemma whoAmI_applySimOps (ops : List SimOp) (sim : Simulator)
    (h : WhoAmIInv sim) : WhoAmIInv (applySimOps ops sim) := by
  induction ops generalizing sim with
  | nil => exact h
  | cons op rest ih => exact ih _ (whoAmI_applySimOp op sim h)

/-- C8: starting from any simulator state whose devices all hold the chip
ID in WHO_AM_I (as created devices do), after any sequence of register
writes (including DEVICE_RESET writes), pattern changes and power-state
changes, the invariant still holds; a faultless read of WHO_AM_I on an
initialized device returns the fixed chip ID 0x68 and leaves the device
unchanged; and a faultless direct write to WHO_AM_I is rejected with
`-EACCES` and changes nothing. -/
theorem C8_whoami_always_chip_id (sim : Simulator) (ops : List SimOp)
    (hinv : WhoAmIInv sim) :
    WhoAmIInv (applySimOps ops sim) ∧
    (∀ idx corrupt roll gen,
      ((applySimOps ops sim).devices idx).initialized = true →
      mpu6050_read_register false corrupt roll gen MPU6050_WHO_AM_I
          ((applySimOps ops sim).devices idx)
        = (0, some MPU6050_WHO_AM_I_VALUE,
           (applySimOps ops sim).devices idx)) ∧
    (∀ idx data,
      ((applySimOps ops sim).devices idx).initialized = true →
      mpu6050_write_register false idx MPU6050_WHO_AM_I data
          (applySimOps ops sim)
        = (-EACCES, applySimOps ops sim)) := by
  have hinv' := whoAmI_applySimOps ops sim hinv
  refine ⟨hinv', ?_, ?_⟩
  · intro idx corrupt roll gen hin
    have hd := readSwitch_default gen MPU6050_WHO_AM_I
      ((applySimOps ops sim).devices idx)
      (by simp only [MPU6050_WHO_AM_I]; omega)
      (by simp only [MPU6050_WHO_AM_I]; omega)
      (by simp only [MPU6050_WHO_AM_I]; omega)
      (by simp only [MPU6050_WHO_AM_I]; omega)
    simp [mpu6050_read_register, hin, is_register_readable, hd, hinv' idx]
  · intro idx data hin
    have hw : is_register_writable MPU6050_WHO_AM_I = false := by decide
    simp [mpu6050_write_register, hin, hw]

/-- Witness for C8 at a concrete input: a device-reset write, a pattern
change and a power-state change on slot 2, then a read of WHO_AM_I. -/
theorem C8_whoami_always_chip_id_witness :
    mpu6050_read_register false 0 0 createdDevice.current_data
        MPU6050_WHO_AM_I
        ((applySimOps [SimOp.write false 2 0x6B 0x80,
                       SimOp.setPattern 2 Pattern.SINE_WAVE,
                       SimOp.setPower 2 PowerState.ON]
            simAllCreated).devices 2)
      = (0, some MPU6050_WHO_AM_I_VALUE,
         (applySimOps [SimOp.write false 2 0x6B 0x80,
                       SimOp.setPattern 2 Pattern.SINE_WAVE,
                       SimOp.setPower 2 PowerState.ON]
            simAllCreated).devices 2) :=
  (C8_whoami_always_chip_id simAllCreated
      [SimOp.write false 2 0x6B 0x80,
       SimOp.setPattern 2 Pattern.SINE_WAVE,
       SimOp.setPower 2 PowerState.ON]
      (fun _ => rfl)).2.1 2 0 0 createdDevice.current_data rfl

/-! ### FIFO ring-buffer invariant (C3) -/

/-- The FIFO operations named by the claim: push via a FIFO_R_W register
write, pop via a FIFO_R_W register read, drain via `mpu6050_fifo_read`,
reset (USER_CTRL FIFO_RESET bit / `mpu6050_fifo_reset`), enable/disable
(`mpu6050_fifo_enable`), and a 14-byte frame append (`update_fifo_buffer`,
the sample-append path). -/
inductive FifoOp where
  | push (b : Nat)
  | pop
  | readBytes (n : Nat)
  | reset
  | enable (e : Bool)
  | appendFrame (d : SensorData)

/-- Apply one FIFO operation, using exactly the primitives the register
and API paths use. -/
def applyFifoOp : FifoOp → FifoBuffer → FifoBuffer
  | FifoOp.push b, f => fifoWriteByte b f
  | FifoOp.pop, f => (fifoPop f).2
  | FifoOp.readBytes n, f => (fifoReadLoop n f).2
  | FifoOp.reset, f => fifoClear f
  | FifoOp.enable e, f =>
    if e then
      { f with enabled := true, head := 0, tail := 0, count := 0,
               overflow := false }
    else
      { f with enabled := false }
  | FifoOp.appendFrame d, f => pushFrame (frameBytes d) f

/-- Invariant that actually holds of the ring buffer: indices are in
range, the count never exceeds the capacity, and the count agrees with the
head/tail distance modulo the capacity (when the FIFO is full the distance
is 0 while the count is 1024, so only the modular form holds). -/
def FifoInv (f : FifoBuffer) : Prop :=
  f.head < FIFO_BUFFER_SIZE ∧ f.tail < FIFO_BUFFER_SIZE ∧
  f.count ≤ FIFO_BUFFER_SIZE ∧
  f.count % FIFO_BUFFER_SIZE
    = (f.head + FIFO_BUFFER_SIZE - f.tail) % FIFO_BUFFER_SIZE

lemma fifoWriteByte_inv (b : Nat) (f : FifoBuffer) (h : FifoInv f) :
    FifoInv (fifoWriteByte b f) := by
  obtain ⟨h1, h2, h3, h4⟩ := h
  unfold fifoWriteByte
  by_cases hc : f.count < FIFO_BUFFER_SIZE
  · rw [if_pos hc]
    refine ⟨?_, ?_, ?_, ?_⟩ <;>
      simp only [FIFO_BUFFER_SIZE] at * <;> omega
  · rw [if_neg hc]
    exact ⟨h1, h2, h3, h4⟩

lemma fifoPop_inv (f : FifoBuffer) (h : FifoInv f) : FifoInv (fifoPop f).2 := by
  obtain ⟨h1, h2, h3, h4⟩ := h
  unfold fifoPop
  by_cases hc : 0 < f.count
  · rw [if_pos hc]
    refine ⟨?_, ?_, ?_, ?_⟩ <;>
      simp only [FIFO_BUFFER_SIZE] at * <;> omega
  · rw [if_neg hc]
    exact ⟨h1, h2, h3, h4⟩

lemma fifoReadLoop_inv (n : Nat) (f : FifoBuffer) (h : FifoInv f) :
    FifoInv (fifoReadLoop n f).2 := by
  induction n generalizing f with
  | zero => exact h
  | succ m ih =>
    obtain ⟨h1, h2, h3, h4⟩ := h
    unfold fifoReadLoop
    by_cases hc : 0 < f.count
    · rw [if_pos hc]
      refine ih _ ⟨?_, ?_, ?_, ?_⟩ <;>
        simp only [FIFO_BUFFER_SIZE] at * <;> omega
    · rw [if_neg hc]
      exact ⟨h1, h2, h3, h4⟩

lemma pushFrame_inv (l : List Nat) (f : FifoBuffer) (h : FifoInv f) :
    FifoInv (pushFrame l f) := by
  induction l generalizing f with
  | nil => exact h
  | cons b rest ih =>
    unfold pushFrame
    by_cases hc : f.count < FIFO_BUFFER_SIZE
    · rw [if_pos hc]
      exact ih _ (fifoWriteByte_inv b f h)
    · rw [if_neg hc]
      exact ⟨h.1, h.2.1, h.2.2.1, h.2.2.2⟩

/-- C3 (amended): the equation that actually holds after every FIFO
operation is the modular form `count % capacity = (head − tail) mod
capacity` together with `count ≤ capacity` and in-range indices — the
plain equation `count = (head − tail) mod capacity` fails exactly when the
FIFO is full (count = 1024, head = tail).  A push onto a full FIFO drops
the byte and only latches the overflow flag, never wrapping over unread
data. -/
theorem C3_fifo_invariant_amended (op : FifoOp) (f : FifoBuffer)
    (hinv : FifoInv f) :
    FifoInv (applyFifoOp op f) ∧
    (∀ b (g : FifoBuffer), g.count = FIFO_BUFFER_SIZE →
      fifoWriteByte b g = { g with overflow := true }) := by
  constructor
  · cases op with
    | push b => exact fifoWriteByte_inv b f hinv
    | pop => exact fifoPop_inv f hinv
    | readBytes n => exact fifoReadLoop_inv n f hinv
    | reset =>
      refine ⟨?_, ?_, ?_, ?_⟩ <;> simp [applyFifoOp, fifoClear, FIFO_BUFFER_SIZE]
    | enable e =>
      cases e
      · simpa [applyFifoOp] using hinv
      · refine ⟨?_, ?_, ?_, ?_⟩ <;> simp [applyFifoOp, FIFO_BUFFER_SIZE]
    | appendFrame d => exact pushFrame_inv (frameBytes d) f hinv
  · intro b g hg
    unfold fifoWriteByte
    rw [if_neg (by omega)]

/-- Witness for C3 (amended) at a concrete input. -/
theorem C3_fifo_invariant_amended_witness :
    FifoInv (applyFifoOp (FifoOp.push 7) createdDevice.fifo) ∧
    fifoWriteByte 3 { createdDevice.fifo with count := FIFO_BUFFER_SIZE }
      = { { createdDevice.fifo with count := FIFO_BUFFER_SIZE } with
          overflow := true } := by
  have h := C3_fifo_invariant_amended (FifoOp.push 7) createdDevice.fifo
    (by refine ⟨?_, ?_, ?_, ?_⟩ <;> decide)
  exact ⟨h.1, h.2 3 _ rfl⟩

/-- Push iteration: `n` consecutive FIFO_R_W byte pushes. -/
def pushN : Nat → FifoBuffer → FifoBuffer
  | 0, f => f
  | n + 1, f => pushN n (fifoWriteByte 0 f)

lemma pushN_counts : ∀ (n : Nat) (f : FifoBuffer), f.tail = 0 →
    f.head = f.count % FIFO_BUFFER_SIZE → f.count + n ≤ FIFO_BUFFER_SIZE →
    (pushN n f).count = f.count + n ∧
    (pushN n f).head = (f.count + n) % FIFO_BUFFER_SIZE ∧
    (pushN n f).tail = 0 := by
  intro n
  induction n with
  | zero =>
    intro f ht hh _
    exact ⟨rfl, by simpa using hh, ht⟩
  | succ m ih =>
    intro f ht hh hle
    have hc : f.count < FIFO_BUFFER_SIZE := by omega
    have hfw : fifoWriteByte 0 f
        = { f with buffer := fun i => if i = f.head then 0 else f.buffer i,
                   head := (f.head + 1) % FIFO_BUFFER_SIZE,
                   count := f.count + 1 } := by
      unfold fifoWriteByte
      rw [if_pos hc]
    have hstep : pushN (m + 1) f = pushN m (fifoWriteByte 0 f) := rfl
    rw [hstep, hfw]
    have hr := ih { f with buffer := fun i => if i = f.head then 0
                             else f.buffer i,
                           head := (f.head + 1) % FIFO_BUFFER_SIZE,
                           count := f.count + 1 }
      ht
      (by
        show (f.head + 1) % FIFO_BUFFER_SIZE
          = (f.count + 1) % FIFO_BUFFER_SIZE
        simp only [FIFO_BUFFER_SIZE] at *
        omega)
      (by
        show f.count + 1 + m ≤ FIFO_BUFFER_SIZE
        omega)
    refine ⟨?_, ?_, hr.2.2⟩
    · rw [hr.1]
      show f.count + 1 + m = f.count + (m + 1)
      omega
    · rw [hr.2.1]
      show (f.count + 1 + m) % FIFO_BUFFER_SIZE
        = (f.count + (m + 1)) % FIFO_BUFFER_SIZE
      simp only [FIFO_BUFFER_SIZE]
      congr 1
      omega

/-- C3 counterexample: after 1024 pushes into the empty FIFO (all of them
FIFO_R_W register-write pushes, each an operation of the claim), the FIFO
is full with `count = 1024` and `head = tail = 0`, so the claimed equation
`count = (head − tail) mod capacity` fails: its right-hand side is 0. -/
theorem C3_counterexample_full_fifo :
    (pushN 1024 createdDevice.fifo).count = 1024 ∧
    (pushN 1024 createdDevice.fifo).head = 0 ∧
    (pushN 1024 createdDevice.fifo).tail = 0 ∧
    (pushN 1024 createdDevice.fifo).count ≠
      ((pushN 1024 createdDevice.fifo).head + FIFO_BUFFER_SIZE
        - (pushN 1024 createdDevice.fifo).tail) % FIFO_BUFFER_SIZE := by
  have h := pushN_counts 1024 createdDevice.fifo rfl (by decide) (by decide)
  obtain ⟨h1, h2, h3⟩ := h
  refine ⟨by simpa using h1, by simpa using h2, h3, ?_⟩
  rw [h1, h2, h3]
  decide

/-! ### DEVICE_RESET and the background sampler (C2, C1) -/

/-- Concrete slab for C2: slot 1 holds an initialized device with an
enabled, partially filled FIFO (count = head = 14); every other slot —
in particular slot 0 — is uninitialized. -/
def simC2 : Simulator :=
  { devices := fun i =>
      if i = 1 then
        { createdDevice with
            fifo := { createdDevice.fifo with enabled := true,
                                              head := 14, count := 14 } }
      else
        { createdDevice with initialized := false } }

/-- Concrete slab for C2, second scenario: as `simC2` but slot 0 is also
initialized, with 5 unread bytes in its own (unrelated) FIFO. -/
def simC2b : Simulator :=
  { devices := fun i =>
      if i = 1 then
        { createdDevice with
            fifo := { createdDevice.fifo with enabled := true,
                                              head := 14, count := 14 } }
      else
        { createdDevice with
            fifo := { createdDevice.fifo with head := 5, count := 5 } } }

/-- C2: evaluation of the code at the failing input.  Writing DEVICE_RESET
(0x80) to PWR_MGMT_1 of the device in slot 1 succeeds and does reset the
register map (WHO_AM_I restored, PWR_MGMT_1 back to the sleep default),
but the written device's own FIFO keeps its 14 unread bytes and stays
enabled — `handle_power_management` calls `mpu6050_fifo_reset(0)`, which
targets slot 0 (here uninitialized, so nothing at all is reset), and no
path clears the `enabled` flag.  In the second scenario slot 0 is
initialized and it is slot 0's FIFO that gets cleared instead of slot
1's. -/
theorem C2_device_reset_misses_own_fifo :
    (mpu6050_write_register false 1 MPU6050_PWR_MGMT_1 0x80 simC2).1 = 0 ∧
    ((mpu6050_write_register false 1 MPU6050_PWR_MGMT_1 0x80
        simC2).2.devices 1).registers MPU6050_WHO_AM_I
      = MPU6050_WHO_AM_I_VALUE ∧
    ((mpu6050_write_register false 1 MPU6050_PWR_MGMT_1 0x80
        simC2).2.devices 1).registers MPU6050_PWR_MGMT_1 = 0x40 ∧
    ((mpu6050_write_register false 1 MPU6050_PWR_MGMT_1 0x80
        simC2).2.devices 1).fifo.count = 14 ∧
    ((mpu6050_write_register false 1 MPU6050_PWR_MGMT_1 0x80
        simC2).2.devices 1).fifo.enabled = true ∧
    ((mpu6050_write_register false 1 MPU6050_PWR_MGMT_1 0x80
        simC2b).2.devices 0).fifo.count = 0 ∧
    ((mpu6050_write_register false 1 MPU6050_PWR_MGMT_1 0x80
        simC2b).2.devices 1).fifo.count = 14 :=
  ⟨rfl, rfl, rfl, rfl, rfl, rfl, rfl⟩

/-- Concrete slab for C1: every slot is an initialized device, powered ON,
with an enabled and empty FIFO — exactly the sampler's precondition. -/
def simC1 : Simulator :=
  { devices := fun _ =>
      { createdDevice with
          power_state := PowerState.ON,
          fifo := { createdDevice.fifo with enabled := true } } }

/-- C1: evaluation of the code at the failing input.  The background tick
is the identity — the per-device update in
`background_simulation_thread` is commented out — so even for a device
that is initialized, FIFO-enabled and powered ON, after `k` ticks from an
empty FIFO the count is still 0 and the overflow flag clear, not
`min(k×14, 1024)`: already for k = 1 the claimed count would be 14 ≠ 0,
and for k = 5 it would be 70 ≠ 0. -/
theorem C1_background_sampler_is_noop :
    (∀ sim : Simulator, background_tick sim = sim) ∧
    ((background_tick^[1] simC1).devices 0).fifo.count = 0 ∧
    ((background_tick^[5] simC1).devices 0).fifo.count = 0 ∧
    ((background_tick^[5] simC1).devices 0).fifo.overflow = false ∧
    min (1 * 14) FIFO_BUFFER_SIZE = 14 ∧
    min (5 * 14) FIFO_BUFFER_SIZE = 70 ∧
    (0 : Nat) ≠ 14 := by
  refine ⟨fun _ => rfl, ?_, ?_, ?_, by decide, by decide, by decide⟩
  · rfl
  · rfl
  · rfl

/-! ### Bus registry slot counter (C10) -/

lemma markAbsent_length (l : List Slot) (address : Nat) :
    (markAbsent l address).length = l.length := by
  induction l with
  | nil => rfl
  | cons d rest ih =>
    unfold markAbsent
    by_cases hd : d.address = address ∧ d.present = true
    · rw [if_pos hd]
      simp
    · rw [if_neg hd]
      simp [ih]

lemma add_device_length (bus : Bus) (address : Nat) (supported : Bool) :
    (i2c_simulator_add_device bus address supported).2.slots.length
      = bus.slots.length
        + (if (i2c_simulator_add_device bus address supported).1 = 0
           then 1 else 0) := by
  unfold i2c_simulator_add_device
  by_cases h1 : (find_device bus address).isSome
  · simp [h1, EEXIST]
  · rw [if_neg h1]
    by_cases h2 : MAX_I2C_DEVICES ≤ bus.slots.length
    · simp [h2, ENOMEM]
    · rw [if_neg h2]
      cases supported
      · simp [ENOTSUP]
      · simp

lemma remove_device_length (bus : Bus) (address : Nat) :
    (i2c_simulator_remove_device bus address).2.slots.length
      = bus.slots.length := by
  unfold i2c_simulator_remove_device
  by_cases h : (find_device bus address).isSome
  · rw [if_pos h]
    exact markAbsent_length bus.slots address
  · rw [if_neg h]

lemma applyBusOp_length (op : BusOp) (bus : Bus) :
    (applyBusOp op bus).slots.length
      = bus.slots.length
        + (match op with
           | BusOp.add address supported =>
             if (i2c_simulator_add_device bus address supported).1 = 0
             then 1 else 0
           | BusOp.remove _ => 0) := by
  cases op with
  | add address supported => exact add_device_length bus address supported
  | remove address => simpa using remove_device_length bus address

/-- C10: the bus slot counter (the length of the slot table) equals its
initial value plus the number of successful `add_device` calls in any
operation sequence — so it is monotonically non-decreasing, and
`remove_device` never decrements it or shortens the table; and once the
table has reached `MAX_I2C_DEVICES` (128) entries, every further
`add_device` for an address with no present slot fails with `-ENOMEM` and
leaves the bus unchanged, even though no device is present at that
address. -/
theorem C10_device_count_never_reused (ops : List BusOp) (bus : Bus) :
    ((runBusOps ops bus).1.slots.length
        = bus.slots.length + (runBusOps ops bus).2) ∧
    (bus.slots.length ≤ (runBusOps ops bus).1.slots.length) ∧
    (∀ address,
      (i2c_simulator_remove_device bus address).2.slots.length
        = bus.slots.length) ∧
    (∀ address supported,
      MAX_I2C_DEVICES ≤ bus.slots.length →
      find_device bus address = none →
      i2c_simulator_add_device bus address supported = (-ENOMEM, bus)) := by
  refine ⟨?_, ?_, ?_, ?_⟩
  · induction ops generalizing bus with
    | nil => simp [runBusOps]
    | cons op rest ih =>
      show (runBusOps rest (applyBusOp op bus)).1.slots.length = _
      rw [ih (applyBusOp op bus), applyBusOp_length op bus]
      cases op <;> (simp [runBusOps]; try omega)
  · induction ops generalizing bus with
    | nil => simp [runBusOps]
    | cons op rest ih =>
      calc bus.slots.length
          ≤ (applyBusOp op bus).slots.length := by
            rw [applyBusOp_length op bus]
            omega
        _ ≤ (runBusOps rest (applyBusOp op bus)).1.slots.length :=
            ih (applyBusOp op bus)
        _ = (runBusOps (op :: rest) bus).1.slots.length := rfl
  · intro address
    exact remove_device_length bus address
  · intro address supported hfull hnone
    unfold i2c_simulator_add_device
    rw [if_neg (by simp [hnone]), if_pos hfull]

/-- Bus whose slot table is full: 128 present slots at address 0. -/
def busFull : Bus := { slots := List.replicate 128 { address := 0, present := true } }

set_option maxRecDepth 4000 in
/-- Witness for C10 at concrete inputs: two adds and a remove from the
empty bus give a table of length 2 with 2 successful adds; a full table
rejects a fresh address with `-ENOMEM`. -/
theorem C10_device_count_never_reused_witness :
    ((runBusOps [BusOp.add 0x68 true, BusOp.remove 0x68, BusOp.add 0x69 true]
        { slots := [] }).1.slots.length
      = ([] : List Slot).length
        + (runBusOps [BusOp.add 0x68 true, BusOp.remove 0x68,
            BusOp.add 0x69 true] { slots := [] }).2) ∧
    i2c_simulator_add_device busFull 5 true = (-ENOMEM, busFull) :=
  ⟨(C10_device_count_never_reused
      [BusOp.add 0x68 true, BusOp.remove 0x68, BusOp.add 0x69 true]
      { slots := [] }).1,
   (C10_device_count_never_reused [] busFull).2.2.2 5 true (by decide)
     (by decide)⟩
